import Mathlib

/-!
Verification of the Telegram/Paystack voucher bot (`src/app.py`) against its
natural-language specification.

The Python program is shallowly embedded:
* the sqlite `vouchers` table is a `List Voucher` in rowid (insertion) order;
  each SQL statement is modelled as a pure function on that list;
* the sqlite `users` table is a `List UserRow`;
* the Flask webhook handler `paystack_webhook` is a pure function from the
  request (signature header, parsed JSON payload) and the voucher table to an
  HTTP response, the Telegram messages sent, and the updated table;
* the body of the polling loop `start_polling` that handles one inbound
  Telegram message is the pure function `handle_message`, with the two
  Paystack HTTP calls (customer creation, dedicated-account creation) passed
  in as oracle results, exactly as the code consumes them;
* JSON metadata values are modelled as strings; Python falsiness of a string
  is emptiness, of an integer is being zero, of `None` is `none`;
* message texts are reproduced from the source, with apostrophe contractions
  written out.
-/

/-- Row of the sqlite `vouchers` table (`init_db`): a plan name, a globally
unique code (`code TEXT UNIQUE`), and a used flag (`used INTEGER DEFAULT 0`,
modelled as `Bool`).  The `id INTEGER PRIMARY KEY AUTOINCREMENT` column is the
position in the list. -/
structure Voucher where
  plan : String
  code : String
  used : Bool
deriving DecidableEq, Repr

/-- The voucher with its `used` flag set, as by
`UPDATE vouchers SET used=1 WHERE code=?` on a matching row. -/
def set_used (v : Voucher) : Voucher :=
  ⟨v.plan, v.code, true⟩

/-- Embeds `SELECT code FROM vouchers WHERE plan=? AND used=0 LIMIT 1`:
the first unused row for the plan, in rowid order. -/
def select_unused (plan : String) (db : List Voucher) : Option String :=
  (db.find? (fun v => v.plan == plan && v.used == false)).map (fun v => v.code)

/-- Embeds `UPDATE vouchers SET used=1 WHERE code=?`: every row whose code
matches is marked used. -/
def mark_used (code : String) (db : List Voucher) : List Voucher :=
  db.map (fun v => if v.code == code then set_used v else v)

/-- Embeds `assign_voucher_for_plan` (src/app.py:148-161): select the first
unused code for the plan; if none, return `none` and leave the table alone;
otherwise mark that code used and return it. -/
def assign_voucher_for_plan (plan : String) (db : List Voucher) :
    Option String × List Voucher :=
  match (db.find? (fun v => v.plan == plan && v.used == false)).map
      (fun v => v.code) with
  | none => (none, db)
  | some code => (some code, mark_used code db)

/-- Whether a code is already present in the table (the `code TEXT UNIQUE`
constraint consulted by `INSERT OR IGNORE`). -/
def has_code (code : String) (db : List Voucher) : Bool :=
  db.any (fun v => v.code == code)

/-- Embeds one `INSERT OR IGNORE INTO vouchers (plan, code, used) VALUES
(?, ?, 0)` (src/app.py:93-96): a duplicate code is a no-op, otherwise the row
is appended unused. -/
def insert_voucher (plan code : String) (db : List Voucher) : List Voucher :=
  if has_code code db then db else db ++ [⟨plan, code, false⟩]

/-- The inner loop of `load_vouchers_into_db` over one plan entry. -/
def load_plan_codes (plan : String) (codes : List String) (db : List Voucher) :
    List Voucher :=
  codes.foldl (fun d c => insert_voucher plan c d) db

/-- Embeds `load_vouchers_into_db` (src/app.py:77-101) applied to a parsed
seed mapping plan -> list of codes (association-list order of `data.items()`). -/
def load_vouchers_into_db (data : List (String × List String))
    (db : List Voucher) : List Voucher :=
  data.foldl (fun d pc => load_plan_codes pc.1 pc.2 d) db

/-- A freshly seeded pool: one unused row per code, in order. -/
def seed_rows (plan : String) (codes : List String) : List Voucher :=
  codes.map (fun c => ⟨plan, c, false⟩)

/-- A run of `n` sequential calls to `assign_voucher_for_plan` for one plan:
the list of results in order, and the final table. -/
def claim_seq (plan : String) : Nat → List Voucher → List (Option String) × List Voucher
  | 0, db => ([], db)
  | n + 1, db =>
    let r := assign_voucher_for_plan plan db
    let rest := claim_seq plan n r.2
    (r.1 :: rest.1, rest.2)

example : assign_voucher_for_plan "Daily" [⟨"Daily", "A", false⟩] =
    (some "A", [⟨"Daily", "A", true⟩]) := by decide

example : assign_voucher_for_plan "Daily" [⟨"Weekly", "A", false⟩] =
    (none, [⟨"Weekly", "A", false⟩]) := by decide

example : load_vouchers_into_db [("Daily", ["A", "B"])] [] =
    [⟨"Daily", "A", false⟩, ⟨"Daily", "B", false⟩] := by decide

/-- The `metadata` object of a Paystack event (`data.get("metadata", {}) or
\x7b\x7d` collapses an absent or null metadata to an empty one): the
`chat_id` and `plan` fields, each possibly absent.  Values are modelled as
the strings carried in the JSON. -/
structure Metadata where
  chat_id : Option String
  plan : Option String
deriving DecidableEq, Repr

/-- The parsed webhook JSON body as the handler reads it: `payload.get
("event")`, `payload.get("data", {}).get("status")` and the metadata. -/
structure WebhookPayload where
  event : Option String
  dataStatus : Option String
  metadata : Metadata
deriving DecidableEq, Repr

/-- The observable outcome of one webhook request: HTTP status code, the
`status` field of the JSON response, its optional `note` field, the Telegram
messages sent (chat id, text), and the voucher table afterwards. -/
structure WebhookResult where
  httpCode : Nat
  status : String
  note : Option String
  messages : List (Int × String)
  db : List Voucher
deriving DecidableEq, Repr

/-- Value of a nonempty all-digit character list, `none` otherwise. -/
def digits_val (cs : List Char) : Option Nat :=
  if cs ≠ [] ∧ cs.all Char.isDigit then
    some (cs.foldl (fun a c => a * 10 + (c.toNat - 48)) 0)
  else none

/-- Python `int(s)` on a string: optional surrounding whitespace, optional
sign, then decimal digits; anything else raises (here: `none`).  Underscore
digit grouping is not modelled. -/
def py_int_of_string (s : String) : Option Int :=
  let t := ((s.data.dropWhile Char.isWhitespace).reverse.dropWhile
    Char.isWhitespace).reverse
  match t with
  | '+' :: rest => (digits_val rest).map (fun n => (n : Int))
  | '-' :: rest => (digits_val rest).map (fun n => -(n : Int))
  | _ => (digits_val t).map (fun n => (n : Int))

/-- Embeds `chat_id = int(metadata.get("chat_id")) if metadata.get("chat_id")
else None` under its `try/except` (src/app.py:192-195): an absent or empty
(falsy) field gives `None`, a non-numeric one raises and is caught to `None`. -/
def webhook_chat_id (m : Metadata) : Option Int :=
  match m.chat_id with
  | none => none
  | some s => if s == "" then none else py_int_of_string s

/-- Python truthiness of the parsed chat id (`if chat_id and plan`):
`None` and `0` are falsy. -/
def opt_int_truthy : Option Int → Bool
  | none => false
  | some n => n != 0

/-- Python truthiness of `metadata.get("plan")`: `None` and `""` are falsy. -/
def opt_str_truthy : Option String → Bool
  | none => false
  | some s => s != ""

/-- Embeds `verify_paystack_signature` (src/app.py:165-170).  `computed`
stands for the HMAC-SHA512 hex digest of the raw body under the secret key;
`hmac.compare_digest` is string equality, and a missing header is rejected. -/
def verify_paystack_signature (computed : String)
    (header_signature : Option String) : Bool :=
  match header_signature with
  | none => false
  | some s => computed == s

/-- Message sent on a successful claim (src/app.py:201). -/
def voucher_msg (plan code : String) : String :=
  "Payment confirmed for " ++ plan ++ ". Here is your voucher code: " ++ code

/-- Message sent when the pool is exhausted (src/app.py:204). -/
def no_voucher_msg (plan : String) : String :=
  "Payment received for " ++ plan ++ ", but no voucher available."

/-- Embeds the webhook handler `paystack_webhook` (src/app.py:173-207).
`computed` is the expected digest of the raw body; `payload` is `none` when
`request.get_json(silent=True)` yields nothing falsy-free (unparsable or
empty body).  The handler verifies the signature, requires a parsable
payload, and on a `charge.success` event or a `data.status == "success"`
with truthy `chat_id` and `plan` metadata claims a voucher and notifies the
buyer; every other case is acknowledged without touching the table. -/
def paystack_webhook (computed : String) (header_signature : Option String)
    (payload : Option WebhookPayload) (db : List Voucher) : WebhookResult :=
  if verify_paystack_signature computed header_signature = false then
    ⟨400, "error", some "Invalid signature", [], db⟩
  else
    match payload with
    | none => ⟨400, "error", some "Invalid payload", [], db⟩
    | some p =>
      if p.event == some "charge.success" || p.dataStatus == some "success" then
        let chat_id := webhook_chat_id p.metadata
        let plan := p.metadata.plan
        if opt_int_truthy chat_id && opt_str_truthy plan then
          let n := chat_id.getD 0
          let pl := plan.getD ""
          match assign_voucher_for_plan pl db with
          | (some code, db2) => ⟨200, "ok", none, [(n, voucher_msg pl code)], db2⟩
          | (none, db2) => ⟨200, "ok", some "no voucher", [(n, no_voucher_msg pl)], db2⟩
        else ⟨200, "ignored", none, [], db⟩
      else ⟨200, "ignored", none, [], db⟩

example : py_int_of_string "0" = some 0 := by decide
example : py_int_of_string " -42 " = some (-42) := by decide
example : py_int_of_string "abc" = none := by decide
example :
    (paystack_webhook "sig" (some "sig")
      (some ⟨some "charge.success", none, ⟨some "5", some "Daily"⟩⟩)
      [⟨"Daily", "A", false⟩]).db = [⟨"Daily", "A", true⟩] := by decide

/-- The configured plans (src/app.py:44): name and price. -/
def PLANS : List (String × Nat) :=
  [("Daily", 500), ("Weekly", 2500), ("Bi-weekly", 5500), ("Monthly", 8000)]

/-- Plan-name membership, `text in PLANS` / `text not in PLANS`. -/
def plan_names : List String :=
  PLANS.map (fun pc => pc.1)

/-- One in-memory conversation entry `CONV[chat_id]` (src/app.py:41): the
`step` marker and the collected fields, each possibly not yet present. -/
structure ConvState where
  step : String
  first_name : Option String
  last_name : Option String
  email : Option String
deriving DecidableEq, Repr

/-- The `data` object returned by a successful dedicated-account creation,
as the handler reads it: `bank.name`, `account_name`, `account_number`. -/
structure DedicatedAccount where
  bankName : String
  accountName : String
  accountNumber : String
deriving DecidableEq, Repr

/-- Row of the sqlite `users` table (`init_db`), keyed by `chat_id INTEGER
PRIMARY KEY`.  The `dedicated_account` column stores the JSON dump of the
account data when present, modelled structurally. -/
structure UserRow where
  chat_id : Int
  first_name : String
  last_name : String
  email : Option String
  plan : String
  customer_id : Option String
  dedicated_account : Option DedicatedAccount
deriving DecidableEq, Repr

/-- Embeds `INSERT OR REPLACE INTO users ...` (src/app.py:262-268): the row
for the same `chat_id` primary key, if any, is replaced. -/
def upsert_user (row : UserRow) (users : List UserRow) : List UserRow :=
  (users.filter (fun u => u.chat_id != row.chat_id)) ++ [row]

/-- One inbound Telegram message, with the sender fields already defaulted
to `""` as by `u.message.from_user.first_name or ""` and the text stripped. -/
structure IncomingMsg where
  chat_id : Int
  text : String
  first : String
  last : String
deriving DecidableEq, Repr

/-- Welcome prompt on `/start` (src/app.py:231). -/
def welcome_msg : String :=
  "Welcome! Please send your email address to proceed."

/-- Re-prompt on an email without `@`; the source writes the contraction
`does not` as a contraction (src/app.py:237). -/
def invalid_email_msg : String :=
  "That does not look like a valid email. Please send a valid email address."

/-- Plan-selection prompt (src/app.py:242). -/
def choose_plan_msg : String :=
  "Choose a plan:"

/-- Re-prompt on a plan not on the keyboard (src/app.py:247). -/
def choose_from_keyboard_msg : String :=
  "Please choose a plan from the keyboard."

/-- Payment instructions when the dedicated account was created
(src/app.py:274); the contraction is written out. -/
def account_info_msg (plan : String) (d : DedicatedAccount) : String :=
  "Please pay " ++ toString (((PLANS.lookup plan).getD 0)) ++
    " (in kobo if NGN) to the dedicated account:\nBank: " ++ d.bankName ++
    "\nAccount name: " ++ d.accountName ++ "\nAccount number: " ++
    d.accountNumber ++ "\nWhen payment clears, you will receive voucher automatically."

/-- Fallback message when account creation failed (src/app.py:279). -/
def no_account_msg (plan : String) : String :=
  "Could not create a dedicated account. Please contact support. Plan: " ++ plan

/-- Help fallback (src/app.py:286). -/
def help_msg : String :=
  "Send /start to begin the purchase flow."

/-- Default fallback (src/app.py:288). -/
def default_msg : String :=
  "Send /start to begin."

/-- The conversation entry used when `CONV` has none for this chat:
`CONV.get(chat_id, {"step": "idle"})`. -/
def conv_or_idle (conv : Option ConvState) : ConvState :=
  conv.getD ⟨"idle", none, none, none⟩

/-- Python truthiness of the customer id (`if customer_id:`). -/
def customer_truthy : Option String → Bool
  | none => false
  | some s => s != ""

/-- Embeds the per-message body of `start_polling` (src/app.py:217-288) for
one update: given the message, this chat entry of `CONV`, the `users` table,
and the results the two Paystack calls would return (`customer_result` for
`create_paystack_customer`, `dedicated_result` for
`create_dedicated_account`, the latter only consulted when the former is
truthy), it yields the new `CONV` entry, the new `users` table, and the
messages sent. -/
def handle_message (msg : IncomingMsg) (conv : Option ConvState)
    (users : List UserRow) (customer_result : Option String)
    (dedicated_result : Option DedicatedAccount) :
    Option ConvState × List UserRow × List (Int × String) :=
  let state := conv_or_idle conv
  let step := state.step
  if msg.text == "/start" then
    (some ⟨"awaiting_email", some msg.first, some msg.last, none⟩, users,
      [(msg.chat_id, welcome_msg)])
  else if step == "awaiting_email" then
    if msg.text.data.contains '@' = false then
      (conv, users, [(msg.chat_id, invalid_email_msg)])
    else
      (some ⟨"awaiting_plan", state.first_name, state.last_name, some msg.text⟩,
        users, [(msg.chat_id, choose_plan_msg)])
  else if step == "awaiting_plan" then
    if plan_names.contains msg.text = false then
      (conv, users, [(msg.chat_id, choose_from_keyboard_msg)])
    else
      let email := state.email
      let first_name := state.first_name.getD msg.first
      let last_name := state.last_name.getD msg.last
      let plan := msg.text
      let customer_id := customer_result
      let dedicated := if customer_truthy customer_id then dedicated_result else none
      let users2 := upsert_user
        ⟨msg.chat_id, first_name, last_name, email, plan, customer_id, dedicated⟩ users
      let m := match dedicated with
        | some d => account_info_msg plan d
        | none => no_account_msg plan
      (some ⟨"idle", state.first_name, state.last_name, state.email⟩, users2,
        [(msg.chat_id, m)])
  else
    if msg.text.toLower == "help" || msg.text.toLower == "/help" then
      (conv, users, [(msg.chat_id, help_msg)])
    else
      (conv, users, [(msg.chat_id, default_msg)])

example :
    (handle_message ⟨5, "Daily", "A", "B"⟩
      (some ⟨"awaiting_plan", some "A", some "B", some "a@b"⟩) [] (some "CUS1")
      none).2.1 =
    [⟨5, "A", "B", some "a@b", "Daily", some "CUS1", none⟩] := by decide

/-- Progress of one in-flight `assign_voucher_for_plan` call, split at its
two sqlite statements: before the `SELECT`, after the `SELECT` fetched a
code but before the `UPDATE`, and returned. -/
inductive ClaimPhase where
  | start : ClaimPhase
  | gotCode (code : String) : ClaimPhase
  | done (result : Option String) : ClaimPhase
deriving DecidableEq, Repr

/-- One atomic step of an in-flight call: sqlite serializes individual
statements, but `assign_voucher_for_plan` holds no transaction across its
`SELECT` and `UPDATE` (src/app.py:151-158), so another call may run between
them. -/
def step_claim (plan : String) (db : List Voucher) :
    ClaimPhase → ClaimPhase × List Voucher
  | ClaimPhase.start =>
    (match select_unused plan db with
     | none => ClaimPhase.done none
     | some c => ClaimPhase.gotCode c, db)
  | ClaimPhase.gotCode c => (ClaimPhase.done (some c), mark_used c db)
  | ClaimPhase.done r => (ClaimPhase.done r, db)

/-- Two interleaved invocations of the claim operation and the shared table. -/
structure TwoClaims where
  a : ClaimPhase
  b : ClaimPhase
  db : List Voucher
deriving DecidableEq, Repr

/-- Run a schedule over two in-flight claims for the same plan: `true`
advances invocation `a` by one atomic statement, `false` advances `b`. -/
def run_schedule (plan : String) (sched : List Bool) (s : TwoClaims) : TwoClaims :=
  sched.foldl
    (fun st pick =>
      if pick then
        let r := step_claim plan st.db st.a
        ⟨r.1, st.b, r.2⟩
      else
        let r := step_claim plan st.db st.b
        ⟨st.a, r.1, r.2⟩)
    s

example :
    run_schedule "Daily" [true, false, true, false]
      ⟨ClaimPhase.start, ClaimPhase.start, [⟨"Daily", "X", false⟩]⟩ =
    ⟨ClaimPhase.done (some "X"), ClaimPhase.done (some "X"),
      [⟨"Daily", "X", true⟩]⟩ := by decide

/-- A core runtime operation on the voucher table: a direct claim, or one
webhook delivery. -/
inductive CoreOp where
  | claim (plan : String) : CoreOp
  | webhook (computed : String) (header_signature : Option String)
      (payload : Option WebhookPayload) : CoreOp

/-- Effect of one core operation on the voucher table. -/
def run_op (db : List Voucher) : CoreOp → List Voucher
  | CoreOp.claim plan => (assign_voucher_for_plan plan db).2
  | CoreOp.webhook c h p => (paystack_webhook c h p db).db

/-- Effect of a sequence of core operations. -/
def run_ops (db : List Voucher) (ops : List CoreOp) : List Voucher :=
  ops.foldl run_op db

/-- How one voucher row may evolve at runtime: plan and code are immutable
and the used flag only moves from unused to used. -/
def evolves (v w : Voucher) : Prop :=
  w.plan = v.plan ∧ w.code = v.code ∧ (v.used = true → w.used = true)

lemma set_used_eq_self (v : Voucher) (h : v.used = true) : set_used v = v := by
  cases v
  simp [set_used] at h ⊢
  exact h

lemma has_code_append (c : String) (l1 l2 : List Voucher) :
    has_code c (l1 ++ l2) = (has_code c l1 || has_code c l2) := by
  simp [has_code, List.any_append]

lemma insert_voucher_of_has_code (p c : String) (db : List Voucher)
    (h : has_code c db = true) : insert_voucher p c db = db := by
  simp [insert_voucher, h]

lemma has_code_insert (c p c2 : String) (db : List Voucher)
    (h : has_code c db = true) : has_code c (insert_voucher p c2 db) = true := by
  unfold insert_voucher
  split
  · exact h
  · rw [has_code_append, h]
    rfl

lemma has_code_insert_self (p c : String) (db : List Voucher) :
    has_code c (insert_voucher p c db) = true := by
  unfold insert_voucher
  split
  · assumption
  · rw [has_code_append]
    simp [has_code]

lemma has_code_load_plan (c p : String) (codes : List String) (db : List Voucher)
    (h : has_code c db = true) : has_code c (load_plan_codes p codes db) = true := by
  induction codes generalizing db with
  | nil => exact h
  | cons c2 cs ih => exact ih (insert_voucher p c2 db) (has_code_insert c p c2 db h)

lemma has_code_load (c : String) (data : List (String × List String))
    (db : List Voucher) (h : has_code c db = true) :
    has_code c (load_vouchers_into_db data db) = true := by
  induction data generalizing db with
  | nil => exact h
  | cons pc rest ih =>
    exact ih (load_plan_codes pc.1 pc.2 db) (has_code_load_plan c pc.1 pc.2 db h)

lemma load_plan_mem (p : String) (codes : List String) (db : List Voucher) :
    ∀ c ∈ codes, has_code c (load_plan_codes p codes db) = true := by
  induction codes generalizing db with
  | nil => intro c hc; cases hc
  | cons c2 cs ih =>
    intro c hc
    rcases List.mem_cons.mp hc with h | h
    · subst h
      exact has_code_load_plan c p cs (insert_voucher p c db)
        (has_code_insert_self p c db)
    · exact ih (insert_voucher p c2 db) c h

lemma load_mem (data : List (String × List String)) (db : List Voucher) :
    ∀ pc ∈ data, ∀ c ∈ pc.2, has_code c (load_vouchers_into_db data db) = true := by
  induction data generalizing db with
  | nil => intro pc hpc; cases hpc
  | cons pc0 rest ih =>
    intro pc hpc c hc
    rcases List.mem_cons.mp hpc with h | h
    · subst h
      exact has_code_load c rest (load_plan_codes pc.1 pc.2 db)
        (load_plan_mem pc.1 pc.2 db c hc)
    · exact ih (load_plan_codes pc0.1 pc0.2 db) pc h c hc

lemma load_plan_of_all_present (p : String) (codes : List String)
    (db : List Voucher) (h : ∀ c ∈ codes, has_code c db = true) :
    load_plan_codes p codes db = db := by
  induction codes with
  | nil => rfl
  | cons c cs ih =>
    unfold load_plan_codes
    rw [List.foldl_cons, insert_voucher_of_has_code p c db (h c (by simp))]
    exact ih (fun c2 hc2 => h c2 (List.mem_cons_of_mem c hc2))

lemma load_of_all_present (data : List (String × List String))
    (db : List Voucher)
    (h : ∀ pc ∈ data, ∀ c ∈ pc.2, has_code c db = true) :
    load_vouchers_into_db data db = db := by
  induction data with
  | nil => rfl
  | cons pc rest ih =>
    unfold load_vouchers_into_db
    rw [List.foldl_cons,
      load_plan_of_all_present pc.1 pc.2 db (h pc (by simp))]
    exact ih (fun pc2 hpc2 => h pc2 (List.mem_cons_of_mem pc hpc2))

/-- C7: the seed bulk-load is an idempotent merge: a code already present in
the table makes the insert a no-op (not an error), and running
`load_vouchers_into_db` twice on the same seed mapping yields the same table
as running it once. -/
theorem C7_load_idempotent_merge (data : List (String × List String))
    (db : List Voucher) :
    (∀ p c, has_code c db = true → insert_voucher p c db = db) ∧
    load_vouchers_into_db data (load_vouchers_into_db data db) =
      load_vouchers_into_db data db := by
  constructor
  · intro p c hc
    exact insert_voucher_of_has_code p c db hc
  · exact load_of_all_present data (load_vouchers_into_db data db)
      (load_mem data db)

/-- Witness for C7 at a concrete seed and table. -/
theorem C7_load_idempotent_merge_witness :
    (insert_voucher "Weekly" "A" [⟨"Daily", "A", false⟩] =
      [⟨"Daily", "A", false⟩]) ∧
    load_vouchers_into_db [("Daily", ["A", "B"])]
        (load_vouchers_into_db [("Daily", ["A", "B"])] []) =
      load_vouchers_into_db [("Daily", ["A", "B"])] [] :=
  ⟨(C7_load_idempotent_merge [("Daily", ["A", "B"])] [⟨"Daily", "A", false⟩]).1
      "Weekly" "A" (by decide),
   (C7_load_idempotent_merge [("Daily", ["A", "B"])] []).2⟩

lemma map_eq_self_of (f : Voucher → Voucher) (l : List Voucher)
    (h : ∀ v ∈ l, f v = v) : l.map f = l := by
  induction l with
  | nil => rfl
  | cons v vs ih =>
    rw [List.map_cons, h v (by simp), ih (fun w hw => h w (List.mem_cons_of_mem v hw))]

lemma load_plan_fresh (p : String) (codes : List String) (db : List Voucher)
    (hnd : codes.Nodup) (h : ∀ c ∈ codes, has_code c db = false) :
    load_plan_codes p codes db = db ++ seed_rows p codes := by
  induction codes generalizing db with
  | nil => simp [load_plan_codes, seed_rows]
  | cons c cs ih =>
    have hins : insert_voucher p c db = db ++ [⟨p, c, false⟩] := by
      simp [insert_voucher, h c (by simp)]
    have hnotin : c ∉ cs := (List.nodup_cons.mp hnd).1
    have hrest : ∀ c2 ∈ cs, has_code c2 (db ++ [⟨p, c, false⟩]) = false := by
      intro c2 hc2
      rw [has_code_append, h c2 (List.mem_cons_of_mem c hc2)]
      have : c ≠ c2 := fun he => hnotin (he ▸ hc2)
      simp [has_code, this]
    unfold load_plan_codes
    rw [List.foldl_cons, hins]
    have := ih (db ++ [⟨p, c, false⟩]) (List.nodup_cons.mp hnd).2 hrest
    unfold load_plan_codes at this
    rw [this]
    simp [seed_rows]

lemma seed_loaded (p : String) (codes : List String) (hnd : codes.Nodup) :
    load_vouchers_into_db [(p, codes)] [] = seed_rows p codes := by
  unfold load_vouchers_into_db
  rw [List.foldl_cons, List.foldl_nil]
  have := load_plan_fresh p codes [] hnd (fun c _ => rfl)
  rw [this]
  rfl

lemma claim_seq_seed (p : String) (codes : List String) (pre : List Voucher)
    (hpre : ∀ v ∈ pre, v.used = true) (hnd : codes.Nodup) :
    claim_seq p codes.length (pre ++ seed_rows p codes) =
      (codes.map some, pre ++ codes.map (fun c => ⟨p, c, true⟩)) := by
  induction codes generalizing pre with
  | nil => simp [claim_seq, seed_rows]
  | cons c cs ih =>
    have hnotin : c ∉ cs := (List.nodup_cons.mp hnd).1
    have hfindpre :
        pre.find? (fun v => v.plan == p && v.used == false) = none := by
      apply List.find?_eq_none.mpr
      intro v hv
      simp [hpre v hv]
    have hfind :
        (pre ++ seed_rows p (c :: cs)).find?
          (fun v => v.plan == p && v.used == false) = some ⟨p, c, false⟩ := by
      rw [List.find?_append, hfindpre]
      simp [seed_rows, List.find?_cons]
    have hassign :
        assign_voucher_for_plan p (pre ++ seed_rows p (c :: cs)) =
          (some c, (pre ++ [⟨p, c, true⟩]) ++ seed_rows p cs) := by
      have hmark :
          mark_used c (pre ++ seed_rows p (c :: cs)) =
            (pre ++ [⟨p, c, true⟩]) ++ seed_rows p cs := by
        unfold mark_used
        rw [List.map_append]
        have hpre2 : pre.map
            (fun v => if v.code == c then set_used v else v) = pre := by
          apply map_eq_self_of
          intro v hv
          split
          · exact set_used_eq_self v (hpre v hv)
          · rfl
        have hseed : (seed_rows p (c :: cs)).map
            (fun v => if v.code == c then set_used v else v) =
              ⟨p, c, true⟩ :: seed_rows p cs := by
          simp only [seed_rows, List.map_cons, List.map_map]
          congr 1
          · simp [set_used]
          · apply List.map_congr_left
            intro c2 hc2
            have : c2 ≠ c := fun he => hnotin (he ▸ hc2)
            simp [Function.comp, this]
        rw [hpre2, hseed, ← List.append_cons]
      unfold assign_voucher_for_plan
      rw [hfind]
      simp [hmark]
    have hpre2 : ∀ v ∈ pre ++ [(⟨p, c, true⟩ : Voucher)], v.used = true := by
      intro v hv
      rcases List.mem_append.mp hv with h | h
      · exact hpre v h
      · simp at h
        subst h
        rfl
    have hlen : (c :: cs).length = cs.length + 1 := rfl
    have ih2 := ih (pre ++ [(⟨p, c, true⟩ : Voucher)]) hpre2
      (List.nodup_cons.mp hnd).2
    rw [hlen]
    unfold claim_seq
    rw [hassign]
    simp only [ih2]
    simp

/-- C2: seeding N distinct codes for a plan and then claiming sequentially
yields each of the N codes exactly once (all distinct), and the next claim
returns the distinguishable `none` rather than failing. -/
theorem C2_seed_then_exhaust (p : String) (codes : List String)
    (hnd : codes.Nodup) :
    (claim_seq p codes.length (load_vouchers_into_db [(p, codes)] [])).1 =
      codes.map some ∧
    (claim_seq p codes.length (load_vouchers_into_db [(p, codes)] [])).1.Nodup ∧
    (assign_voucher_for_plan p
      (claim_seq p codes.length (load_vouchers_into_db [(p, codes)] [])).2).1 =
      none := by
  have hrun := claim_seq_seed p codes [] (fun v hv => by cases hv) hnd
  simp only [List.nil_append] at hrun
  rw [seed_loaded p codes hnd, hrun]
  refine ⟨rfl, hnd.map (Option.some_injective String), ?_⟩
  have hfind : (codes.map (fun c => (⟨p, c, true⟩ : Voucher))).find?
      (fun v => v.plan == p && v.used == false) = none := by
    apply List.find?_eq_none.mpr
    intro v hv
    rcases List.mem_map.mp hv with ⟨c, _, hc⟩
    subst hc
    simp
  show (assign_voucher_for_plan p
    (codes.map (fun c => (⟨p, c, true⟩ : Voucher)))).1 = none
  unfold assign_voucher_for_plan
  rw [hfind]
  rfl

/-- Witness for C2 with two seeded codes. -/
theorem C2_seed_then_exhaust_witness :
    (["A", "B"] : List String).Nodup ∧
    ((claim_seq "Daily" (["A", "B"] : List String).length
        (load_vouchers_into_db [("Daily", ["A", "B"])] [])).1 =
      (["A", "B"] : List String).map some ∧
    (claim_seq "Daily" (["A", "B"] : List String).length
        (load_vouchers_into_db [("Daily", ["A", "B"])] [])).1.Nodup ∧
    (assign_voucher_for_plan "Daily"
      (claim_seq "Daily" (["A", "B"] : List String).length
        (load_vouchers_into_db [("Daily", ["A", "B"])] [])).2).1 = none) :=
  ⟨by decide, C2_seed_then_exhaust "Daily" ["A", "B"] (by decide)⟩

lemma evolves_rfl (v : Voucher) : evolves v v :=
  ⟨rfl, rfl, fun h => h⟩

lemma forall2_evolves_refl (l : List Voucher) : List.Forall₂ evolves l l := by
  induction l with
  | nil => exact List.Forall₂.nil
  | cons v vs ih => exact List.Forall₂.cons (evolves_rfl v) ih

lemma forall2_evolves_trans {l1 l2 l3 : List Voucher}
    (h12 : List.Forall₂ evolves l1 l2) (h23 : List.Forall₂ evolves l2 l3) :
    List.Forall₂ evolves l1 l3 := by
  induction h12 generalizing l3 with
  | nil => exact h23
  | cons hab h ih =>
    cases h23 with
    | cons hbc h2 =>
      exact List.Forall₂.cons
        ⟨hbc.1.trans hab.1, hbc.2.1.trans hab.2.1,
          fun hu => hbc.2.2 (hab.2.2 hu)⟩ (ih h2)

lemma forall2_evolves_map (f : Voucher → Voucher)
    (h : ∀ v, evolves v (f v)) (l : List Voucher) :
    List.Forall₂ evolves l (l.map f) := by
  induction l with
  | nil => exact List.Forall₂.nil
  | cons v vs ih => exact List.Forall₂.cons (h v) ih

lemma evolves_mark_used (code : String) (l : List Voucher) :
    List.Forall₂ evolves l (mark_used code l) := by
  apply forall2_evolves_map
  intro v
  unfold set_used
  split
  · exact ⟨rfl, rfl, fun _ => rfl⟩
  · exact evolves_rfl v

lemma evolves_assign (plan : String) (db : List Voucher) :
    List.Forall₂ evolves db (assign_voucher_for_plan plan db).2 := by
  unfold assign_voucher_for_plan
  rcases h : (db.find? (fun v => v.plan == plan && v.used == false)).map
      (fun v => v.code) with _ | code
  · simp only [h]
    exact forall2_evolves_refl db
  · simp only [h]
    exact evolves_mark_used code db

lemma evolves_webhook (c : String) (h : Option String)
    (p : Option WebhookPayload) (db : List Voucher) :
    List.Forall₂ evolves db (paystack_webhook c h p db).db := by
  unfold paystack_webhook
  split
  · exact forall2_evolves_refl db
  · cases p with
    | none => exact forall2_evolves_refl db
    | some pl =>
      simp only
      split
      · split
        · rcases hassign : assign_voucher_for_plan (pl.metadata.plan.getD "") db
            with ⟨oc, db2⟩
          have := evolves_assign (pl.metadata.plan.getD "") db
          rw [hassign] at this
          cases oc <;> simpa using this
        · exact forall2_evolves_refl db
      · exact forall2_evolves_refl db

lemma evolves_run_op (db : List Voucher) (op : CoreOp) :
    List.Forall₂ evolves db (run_op db op) := by
  cases op with
  | claim plan => exact evolves_assign plan db
  | webhook c h p => exact evolves_webhook c h p db

/-- C6: over any sequence of core runtime operations (claims and webhook
handlings), each voucher row keeps its plan and code, its used flag only
moves from unused to used (so the unused set never grows and no row is ever
reverted), and no row is deleted or created (the table keeps its length). -/
theorem C6_unused_never_grows (ops : List CoreOp) (db : List Voucher) :
    List.Forall₂ evolves db (run_ops db ops) ∧
    (run_ops db ops).length = db.length := by
  induction ops generalizing db with
  | nil => exact ⟨forall2_evolves_refl db, rfl⟩
  | cons op rest ih =>
    have hstep : run_ops db (op :: rest) = run_ops (run_op db op) rest := rfl
    rw [hstep]
    refine ⟨forall2_evolves_trans (evolves_run_op db op) (ih (run_op db op)).1, ?_⟩
    rw [(ih (run_op db op)).2]
    exact (evolves_run_op db op).length_eq.symm

/-- C5: a webhook request whose signature header does not equal the expected
HMAC-SHA512 hex digest of the raw body (including a missing header) is
rejected with a 400 error response before anything else happens: no message
is sent and the voucher table is unchanged. -/
theorem C5_bad_signature_rejected (computed : String) (hdr : Option String)
    (payload : Option WebhookPayload) (db : List Voucher)
    (h : hdr ≠ some computed) :
    paystack_webhook computed hdr payload db =
      ⟨400, "error", some "Invalid signature", [], db⟩ := by
  have hv : verify_paystack_signature computed hdr = false := by
    cases hdr with
    | none => rfl
    | some s =>
      have hne : computed ≠ s := fun he => h (by rw [he])
      simp [verify_paystack_signature, hne]
  unfold paystack_webhook
  rw [hv]
  simp

/-- Witness for C5 at a concrete mismatched signature. -/
theorem C5_bad_signature_rejected_witness :
    (some "deadbeef" : Option String) ≠ some "expected" ∧
    paystack_webhook "expected" (some "deadbeef") none
        [⟨"Daily", "A", false⟩] =
      ⟨400, "error", some "Invalid signature", [], [⟨"Daily", "A", false⟩]⟩ :=
  ⟨by decide,
   C5_bad_signature_rejected "expected" (some "deadbeef") none
     [⟨"Daily", "A", false⟩] (by decide)⟩

lemma paystack_webhook_verified (computed : String) (p : WebhookPayload)
    (db : List Voucher) :
    paystack_webhook computed (some computed) (some p) db =
      if (p.event == some "charge.success" || p.dataStatus == some "success") = true
      then
        if (opt_int_truthy (webhook_chat_id p.metadata) &&
            opt_str_truthy p.metadata.plan) = true then
          match assign_voucher_for_plan (p.metadata.plan.getD "") db with
          | (some code, db2) =>
            ⟨200, "ok", none,
              [((webhook_chat_id p.metadata).getD 0,
                voucher_msg (p.metadata.plan.getD "") code)], db2⟩
          | (none, db2) =>
            ⟨200, "ok", some "no voucher",
              [((webhook_chat_id p.metadata).getD 0,
                no_voucher_msg (p.metadata.plan.getD ""))], db2⟩
        else ⟨200, "ignored", none, [], db⟩
      else ⟨200, "ignored", none, [], db⟩ := by
  have hv : verify_paystack_signature computed (some computed) = true := by
    simp [verify_paystack_signature]
  unfold paystack_webhook
  rw [hv]
  simp

/-- C10 (amended): with a valid signature and parsable payload, the
reconciliation path runs (response status `"ok"`, with a buyer notification)
exactly when the event is `charge.success` or `data.status` is `"success"`,
and the metadata plan is non-empty, and the chat id parses as a nonzero
integer; in every other case the event is acknowledged `"ignored"` with no
state change. -/
theorem C10_reconciliation_condition (computed : String) (p : WebhookPayload)
    (db : List Voucher) :
    ((paystack_webhook computed (some computed) (some p) db).status =
      if ((p.event == some "charge.success" || p.dataStatus == some "success") &&
          (opt_int_truthy (webhook_chat_id p.metadata) &&
            opt_str_truthy p.metadata.plan)) = true then "ok" else "ignored") ∧
    (((p.event == some "charge.success" || p.dataStatus == some "success") &&
        (opt_int_truthy (webhook_chat_id p.metadata) &&
          opt_str_truthy p.metadata.plan)) = false →
      paystack_webhook computed (some computed) (some p) db =
        ⟨200, "ignored", none, [], db⟩) ∧
    (((p.event == some "charge.success" || p.dataStatus == some "success") &&
        (opt_int_truthy (webhook_chat_id p.metadata) &&
          opt_str_truthy p.metadata.plan)) = true →
      (paystack_webhook computed (some computed) (some p) db).messages ≠ []) := by
  rw [paystack_webhook_verified]
  cases hev : (p.event == some "charge.success" || p.dataStatus == some "success") with
  | false => simp
  | true =>
    cases htr : (opt_int_truthy (webhook_chat_id p.metadata) &&
        opt_str_truthy p.metadata.plan) with
    | false => simp
    | true =>
      rcases hassign : assign_voucher_for_plan (p.metadata.plan.getD "") db
        with ⟨oc, db2⟩
      cases oc <;> simp [hassign]

/-- Witness for C10 at a concrete payload whose event type is not
`charge.success` but whose `data.status` is `"success"`. -/
theorem C10_reconciliation_condition_witness :
    ((paystack_webhook "sig" (some "sig")
        (some ⟨some "transfer.success", some "success", ⟨some "7", some "Daily"⟩⟩)
        [⟨"Daily", "A", false⟩]).status =
      if (((some "transfer.success" : Option String) == some "charge.success" ||
            (some "success" : Option String) == some "success") &&
          (opt_int_truthy (webhook_chat_id ⟨some "7", some "Daily"⟩) &&
            opt_str_truthy (some "Daily"))) = true then "ok" else "ignored") ∧
    ((((some "transfer.success" : Option String) == some "charge.success" ||
        (some "success" : Option String) == some "success") &&
        (opt_int_truthy (webhook_chat_id ⟨some "7", some "Daily"⟩) &&
          opt_str_truthy (some "Daily"))) = false →
      paystack_webhook "sig" (some "sig")
        (some ⟨some "transfer.success", some "success", ⟨some "7", some "Daily"⟩⟩)
        [⟨"Daily", "A", false⟩] =
        ⟨200, "ignored", none, [], [⟨"Daily", "A", false⟩]⟩) ∧
    ((((some "transfer.success" : Option String) == some "charge.success" ||
        (some "success" : Option String) == some "success") &&
        (opt_int_truthy (webhook_chat_id ⟨some "7", some "Daily"⟩) &&
          opt_str_truthy (some "Daily"))) = true →
      (paystack_webhook "sig" (some "sig")
        (some ⟨some "transfer.success", some "success", ⟨some "7", some "Daily"⟩⟩)
        [⟨"Daily", "A", false⟩]).messages ≠ []) :=
  C10_reconciliation_condition "sig"
    ⟨some "transfer.success", some "success", ⟨some "7", some "Daily"⟩⟩
    [⟨"Daily", "A", false⟩]

/-- C10 counterexample: the metadata chat id `"0"` parses as the integer `0`,
the event is a verified `charge.success` with a configured plan, yet the
handler acknowledges the event as ignored and neither claims a voucher nor
notifies anyone, because `0` is falsy in `if chat_id and plan`. -/
theorem C10_zero_chat_id_counterexample :
    py_int_of_string "0" = some 0 ∧
    paystack_webhook "sig" (some "sig")
        (some ⟨some "charge.success", none, ⟨some "0", some "Daily"⟩⟩)
        [⟨"Daily", "D1", false⟩] =
      ⟨200, "ignored", none, [], [⟨"Daily", "D1", false⟩]⟩ := by
  constructor
  · decide
  · decide

/-- C9 (amended): a verified payment-confirmed event whose metadata does not
yield a usable chat id (absent, empty, non-numeric, or zero) or a non-empty
plan is acknowledged with a success-style `"ignored"` 200 response, is not
treated as an error, and changes no voucher state and sends no message.  The
handler performs no order lookup at all, so an event with complete metadata
claims a voucher even when no order or user record exists (see the
counterexample). -/
theorem C9_unmappable_event_ignored (computed : String) (p : WebhookPayload)
    (db : List Voucher)
    (hsucc : (p.event == some "charge.success" ||
      p.dataStatus == some "success") = true)
    (hmeta : opt_int_truthy (webhook_chat_id p.metadata) = false ∨
      opt_str_truthy p.metadata.plan = false) :
    paystack_webhook computed (some computed) (some p) db =
      ⟨200, "ignored", none, [], db⟩ := by
  rw [paystack_webhook_verified, hsucc]
  have htr : (opt_int_truthy (webhook_chat_id p.metadata) &&
      opt_str_truthy p.metadata.plan) = false := by
    rcases hmeta with h | h <;> simp [h]
  rw [htr]
  simp

/-- Witness for C9: a verified `charge.success` event with no chat id in its
metadata. -/
theorem C9_unmappable_event_ignored_witness :
    (((some "charge.success" : Option String) == some "charge.success" ||
      (none : Option String) == some "success") = true) ∧
    (opt_int_truthy (webhook_chat_id ⟨none, some "Daily"⟩) = false ∨
      opt_str_truthy (some "Daily") = false) ∧
    paystack_webhook "sig" (some "sig")
        (some ⟨some "charge.success", none, ⟨none, some "Daily"⟩⟩)
        [⟨"Daily", "A", false⟩] =
      ⟨200, "ignored", none, [], [⟨"Daily", "A", false⟩]⟩ :=
  ⟨by decide, Or.inl (by decide),
   C9_unmappable_event_ignored "sig"
     ⟨some "charge.success", none, ⟨none, some "Daily"⟩⟩
     [⟨"Daily", "A", false⟩] (by decide) (Or.inl (by decide))⟩

/-- C9 counterexample: the code keeps no order records, so a verified
payment-confirmed event whose metadata matches no known order or user (here:
a system with no stored users at all) is not acknowledged as ignored — the
handler claims a voucher, mutates the table and notifies the metadata chat
id. -/
theorem C9_no_order_lookup_counterexample :
    paystack_webhook "sig" (some "sig")
        (some ⟨some "charge.success", none, ⟨some "5", some "Daily"⟩⟩)
        [⟨"Daily", "D1", false⟩] =
      ⟨200, "ok", none, [(5, voucher_msg "Daily" "D1")],
        [⟨"Daily", "D1", true⟩]⟩ ∧
    (paystack_webhook "sig" (some "sig")
        (some ⟨some "charge.success", none, ⟨some "5", some "Daily"⟩⟩)
        [⟨"Daily", "D1", false⟩]).status ≠ "ignored" ∧
    (paystack_webhook "sig" (some "sig")
        (some ⟨some "charge.success", none, ⟨some "5", some "Daily"⟩⟩)
        [⟨"Daily", "D1", false⟩]).db ≠ [⟨"Daily", "D1", false⟩] := by
  refine ⟨by decide, by decide, by decide⟩

/-- C1 (code bug): the webhook handler is not idempotent.  Delivering the
same verified payment-confirmed event twice claims a second voucher and
sends a second message: after the first delivery the table has code `A`
used, after the redelivery code `B` is used as well, so the handler applied
twice does not equal the handler applied once. -/
theorem C1_second_delivery_claims_again :
    (paystack_webhook "sig" (some "sig")
        (some ⟨some "charge.success", none, ⟨some "5", some "Daily"⟩⟩)
        [⟨"Daily", "A", false⟩, ⟨"Daily", "B", false⟩]).db =
      [⟨"Daily", "A", true⟩, ⟨"Daily", "B", false⟩] ∧
    (paystack_webhook "sig" (some "sig")
        (some ⟨some "charge.success", none, ⟨some "5", some "Daily"⟩⟩)
        [⟨"Daily", "A", true⟩, ⟨"Daily", "B", false⟩]).db =
      [⟨"Daily", "A", true⟩, ⟨"Daily", "B", true⟩] ∧
    (paystack_webhook "sig" (some "sig")
        (some ⟨some "charge.success", none, ⟨some "5", some "Daily"⟩⟩)
        [⟨"Daily", "A", true⟩, ⟨"Daily", "B", false⟩]).messages =
      [(5, voucher_msg "Daily" "B")] := by
  refine ⟨by decide, by decide, by decide⟩

/-- C3 (code bug): `assign_voucher_for_plan` holds no transaction across its
`SELECT` and `UPDATE`, so under the interleaving `A`-select, `B`-select,
`A`-update, `B`-update on a pool holding the single unused code `X`, both
invocations return the same code `X`. -/
theorem C3_concurrent_claims_duplicate :
    run_schedule "Daily" [true, false, true, false]
        ⟨ClaimPhase.start, ClaimPhase.start, [⟨"Daily", "X", false⟩]⟩ =
      ⟨ClaimPhase.done (some "X"), ClaimPhase.done (some "X"),
        [⟨"Daily", "X", true⟩]⟩ := by
  decide

/-- C8 (amended): for any message other than the restart command `/start`, a
failed transition guard never advances the stage: in the email stage a text
without `@` leaves the conversation entry, the users table and the stage
unchanged and re-prompts; in the plan stage a text that is not a configured
plan name does the same.  (`/start` itself is handled first and resets any
stage to `awaiting_email`, see the counterexample.) -/
theorem C8_guard_blocks_stage (msg : IncomingMsg) (conv : Option ConvState)
    (users : List UserRow) (cr : Option String) (dr : Option DedicatedAccount)
    (hne : msg.text ≠ "/start") :
    ((conv_or_idle conv).step = "awaiting_email" →
      msg.text.data.contains '@' = false →
      handle_message msg conv users cr dr =
        (conv, users, [(msg.chat_id, invalid_email_msg)])) ∧
    ((conv_or_idle conv).step = "awaiting_plan" →
      plan_names.contains msg.text = false →
      handle_message msg conv users cr dr =
        (conv, users, [(msg.chat_id, choose_from_keyboard_msg)])) := by
  have hstart : (msg.text == "/start") = false := beq_eq_false_iff_ne.mpr hne
  constructor
  · intro hstep hat
    have hat2 : ('@' ∈ msg.text.data) = False := by simpa using hat
    unfold handle_message
    simp [hstart, hstep, hat, hat2]
  · intro hstep hplan
    have hplan2 : (msg.text ∈ plan_names) = False := by simpa using hplan
    unfold handle_message
    simp [hstart, hstep, hplan, hplan2]

/-- Witness for C8 at a concrete email-stage session and a concrete
plan-stage session. -/
theorem C8_guard_blocks_stage_witness :
    (("no-at-sign" : String) ≠ "/start") ∧
    (((conv_or_idle (some ⟨"awaiting_email", some "A", some "B", none⟩)).step =
        "awaiting_email" →
      ("no-at-sign" : String).data.contains '@' = false →
      handle_message ⟨5, "no-at-sign", "A", "B"⟩
          (some ⟨"awaiting_email", some "A", some "B", none⟩) [] none none =
        (some ⟨"awaiting_email", some "A", some "B", none⟩, [],
          [(5, invalid_email_msg)])) ∧
    ((conv_or_idle (some ⟨"awaiting_email", some "A", some "B", none⟩)).step =
        "awaiting_plan" →
      plan_names.contains "no-at-sign" = false →
      handle_message ⟨5, "no-at-sign", "A", "B"⟩
          (some ⟨"awaiting_email", some "A", some "B", none⟩) [] none none =
        (some ⟨"awaiting_email", some "A", some "B", none⟩, [],
          [(5, choose_from_keyboard_msg)]))) :=
  ⟨by decide,
   C8_guard_blocks_stage ⟨5, "no-at-sign", "A", "B"⟩
     (some ⟨"awaiting_email", some "A", some "B", none⟩) [] none none
     (by decide)⟩

/-- C8 counterexample: in the plan stage, the message `/start` is not a
configured plan name, yet it does not leave the session in the plan stage —
it resets the entry to the email stage and discards the collected email. -/
theorem C8_restart_escapes_plan_stage :
    plan_names.contains "/start" = false ∧
    (handle_message ⟨5, "/start", "A", "B"⟩
        (some ⟨"awaiting_plan", some "A", some "B", some "a@b"⟩) [] none
        none).1 =
      some ⟨"awaiting_email", some "A", some "B", none⟩ ∧
    ("awaiting_email" : String) ≠ "awaiting_plan" := by
  refine ⟨by decide, by decide, by decide⟩

/-- C4 (amended): when a valid plan is chosen but the dedicated-account
creation fails (the customer call is falsy, or the account call returns
`None`), the handler still persists a user record for the session — with the
collection-account column empty — tells the buyer to contact support (not to
retry), and resets the conversation step to `idle`. -/
theorem C4_account_failure_still_persists (msg : IncomingMsg)
    (conv : Option ConvState) (users : List UserRow) (cr : Option String)
    (dr : Option DedicatedAccount)
    (hstep : (conv_or_idle conv).step = "awaiting_plan")
    (hplan : plan_names.contains msg.text = true)
    (hfail : (if customer_truthy cr then dr else none) = none) :
    handle_message msg conv users cr dr =
      (some ⟨"idle", (conv_or_idle conv).first_name,
        (conv_or_idle conv).last_name, (conv_or_idle conv).email⟩,
       upsert_user ⟨msg.chat_id,
         (conv_or_idle conv).first_name.getD msg.first,
         (conv_or_idle conv).last_name.getD msg.last,
         (conv_or_idle conv).email, msg.text, cr, none⟩ users,
       [(msg.chat_id, no_account_msg msg.text)]) := by
  have hne : (msg.text == "/start") = false := by
    apply beq_eq_false_iff_ne.mpr
    intro he
    rw [he] at hplan
    exact absurd hplan (by decide)
  have hplan2 : msg.text ∈ plan_names := by simpa using hplan
  unfold handle_message
  simp [hne, hstep, hplan, hplan2, hfail]

/-- Witness for C4 at a concrete session whose dedicated-account creation
returns `None`. -/
theorem C4_account_failure_still_persists_witness :
    ((conv_or_idle (some ⟨"awaiting_plan", some "Ann", some "Bee", some "a@b"⟩)).step =
      "awaiting_plan") ∧
    plan_names.contains "Daily" = true ∧
    ((if customer_truthy (some "CUS1") then
        (none : Option DedicatedAccount) else none) = none) ∧
    handle_message ⟨5, "Daily", "Ann", "Bee"⟩
        (some ⟨"awaiting_plan", some "Ann", some "Bee", some "a@b"⟩) []
        (some "CUS1") none =
      (some ⟨"idle",
        (conv_or_idle (some ⟨"awaiting_plan", some "Ann", some "Bee", some "a@b"⟩)).first_name,
        (conv_or_idle (some ⟨"awaiting_plan", some "Ann", some "Bee", some "a@b"⟩)).last_name,
        (conv_or_idle (some ⟨"awaiting_plan", some "Ann", some "Bee", some "a@b"⟩)).email⟩,
       upsert_user ⟨5,
         (conv_or_idle (some ⟨"awaiting_plan", some "Ann", some "Bee", some "a@b"⟩)).first_name.getD "Ann",
         (conv_or_idle (some ⟨"awaiting_plan", some "Ann", some "Bee", some "a@b"⟩)).last_name.getD "Bee",
         (conv_or_idle (some ⟨"awaiting_plan", some "Ann", some "Bee", some "a@b"⟩)).email,
         "Daily", some "CUS1", none⟩ [],
       [(5, no_account_msg "Daily")]) :=
  ⟨rfl, by decide, rfl,
   C4_account_failure_still_persists ⟨5, "Daily", "Ann", "Bee"⟩
     (some ⟨"awaiting_plan", some "Ann", some "Bee", some "a@b"⟩) []
     (some "CUS1") none rfl (by decide) rfl⟩

/-- C4 counterexample: with a valid plan chosen and the dedicated-account
creation failing, a user record for the session is persisted anyway (the
claim says none may be), and the buyer is told to contact support rather
than to retry. -/
theorem C4_persists_on_failure_counterexample :
    (handle_message ⟨5, "Daily", "Ann", "Bee"⟩
        (some ⟨"awaiting_plan", some "Ann", some "Bee", some "a@b"⟩) []
        (some "CUS1") none).2.1 =
      [⟨5, "Ann", "Bee", some "a@b", "Daily", some "CUS1", none⟩] ∧
    ([(⟨5, "Ann", "Bee", some "a@b", "Daily", some "CUS1", none⟩ : UserRow)] ≠
      ([] : List UserRow)) ∧
    (handle_message ⟨5, "Daily", "Ann", "Bee"⟩
        (some ⟨"awaiting_plan", some "Ann", some "Bee", some "a@b"⟩) []
        (some "CUS1") none).2.2 = [(5, no_account_msg "Daily")] := by
  refine ⟨by decide, by decide, by decide⟩
